import Mathlib

/-!
# Verification of the resumable pagination engine of `fetch_likers.py`

This file gives a shallow embedding of the core of the repository's single
source file `fetch_likers.py` (a resumable, rate-limited collector of the
users who liked a tweet, with a SQLite-backed checkpoint and record store and
CSV snapshot export) and proves properties of that embedding.

Modelling conventions:
* SQLite tables are lists of row structures in insertion (rowid) order.
* `INSERT OR IGNORE` against the `likers` schema follows SQLite semantics:
  `user_id` is declared `TEXT NOT NULL`, so a row offering SQL NULL for it
  (a payload object without an `id` field) raises an applicable NOT NULL
  constraint violation, which the IGNORE algorithm resolves by silently
  skipping that row; a row whose `(tweet_id, user_id)` primary key equals an
  existing row's key is likewise silently skipped.
* Wall-clock time is a natural number of seconds threaded through the
  simulation; `time.sleep(k)` advances it by `k`.
* The sampled values of `random.uniform(1, 3)` (jitter before the limit) and
  `random.uniform(0, 1.2)` (backoff jitter) are environment parameters
  `jitter` and `bjitter`, in whole seconds.
* The production configuration is modelled: `QUICK_TEST` and `TEST_MODE`
  unset, so `max_results = 100`, `max_pages = 999999`, and no wait is skipped.
* Python `max(0, reset - now)` on ints coincides with truncated `Nat`
  subtraction `reset - now`, which is used directly.
-/

namespace FetchLikers

/-- A decoded user object from a page payload (`response.json()["data"][i]`).
A field absent from the JSON object is `none`, mirroring `dict.get`
returning `None`.  `verified` is the truthiness of the `verified` field
(`bool(user.get('verified'))`); `public_metrics` holds the JSON-serialized
metrics blob when the field is present (`json.dumps` of the value). -/
structure ApiUser where
  id : Option String
  username : Option String
  name : Option String
  verified : Bool
  created_at : Option String
  description : Option String
  public_metrics : Option String
  deriving DecidableEq, Repr

/-- A row of the `likers` table, with columns exactly as created by
`init_database` and populated by `insert_users`.  `verified` is the stored
integer `int(bool(...))`; `description` is always a string because the code
inserts `user.get('description', '')`. -/
structure LikerRow where
  tweet_id : String
  user_id : Option String
  username : Option String
  name : Option String
  verified : Nat
  created_at : Option String
  description : String
  profile_url : String
  public_metrics : String
  deriving DecidableEq, Repr

/-- Derived display field: `profile_url = "https://x.com/" + username if username else ""` where
`username = user.get('username', '')`. -/
def profileUrlOf (u : ApiUser) : String :=
  if u.username.getD "" != "" then "https://x.com/" ++ u.username.getD "" else ""

/-- The `likers` row built by one iteration of `insert_users` from a user
object.  `json.dumps(user.get('public_metrics', \x7b\x7d))` is modelled by the
already-serialized blob with default `"\x7b\x7d"`. -/
def mkLikerRow (tweet_id : String) (u : ApiUser) : LikerRow :=
  { tweet_id := tweet_id
    user_id := u.id
    username := u.username
    name := u.name
    verified := if u.verified then 1 else 0
    created_at := u.created_at
    description := u.description.getD ""
    profile_url := profileUrlOf u
    public_metrics := u.public_metrics.getD "\x7b\x7d" }

/-- SQLite conflict test for the `likers` primary key `(tweet_id, user_id)`.
Both key columns are declared NOT NULL, and `insertOrIgnore` drops any
NULL-keyed row before it can reach the table, so the conflict is plain
equality of the two key columns. -/
def keysConflict (a b : LikerRow) : Bool :=
  a.tweet_id == b.tweet_id && a.user_id == b.user_id

/-- Modelling `INSERT OR IGNORE INTO likers`: a row offering NULL for the
`user_id TEXT NOT NULL` column is an applicable constraint violation that
the IGNORE algorithm skips silently; otherwise the row is appended unless
its primary key equals an existing row's. -/
def insertOrIgnore (tbl : List LikerRow) (r : LikerRow) : List LikerRow :=
  match r.user_id with
  | none => tbl
  | some _ => if tbl.any (fun x => keysConflict x r) then tbl else tbl ++ [r]

/-- Modelling `insert_users(tweet_id, users)`: one `INSERT OR IGNORE` per user object,
in payload order. -/
def insert_users (tbl : List LikerRow) (tweet_id : String) (users : List ApiUser) :
    List LikerRow :=
  users.foldl (fun t u => insertOrIgnore t (mkLikerRow tweet_id u)) tbl

/-- A row of the `state` table.  `done` is stored as an integer column
(`int(done)` on write, `bool(row[1])` on read). -/
structure StateRow where
  tweet_id : String
  next_token : Option String
  doneInt : Nat
  last_request_time : Option Nat
  total_users_found : Nat
  last_export_time : Nat
  deriving DecidableEq, Repr

/-- Modelling `SELECT ... FROM state WHERE tweet_id=?` (first matching row). -/
def findState (tbl : List StateRow) (tid : String) : Option StateRow :=
  tbl.find? (fun r => r.tweet_id == tid)

/-- The default checkpoint row `(tweet_id, NULL, 0, 0, 0)` that `get_state`
creates for a new target. -/
def defaultStateRow (tid : String) : StateRow :=
  { tweet_id := tid
    next_token := none
    doneInt := 0
    last_request_time := none
    total_users_found := 0
    last_export_time := 0 }

/-- Modelling `get_state`: return the stored `(next_token, done, total_users_found,
last_export_time)` if a row exists, otherwise insert the default row
`(tweet_id, NULL, 0, 0, 0)` and return the defaults. -/
def get_state (tbl : List StateRow) (tid : String) :
    (Option String × Bool × Nat × Nat) × List StateRow :=
  match findState tbl tid with
  | some r => ((r.next_token, r.doneInt != 0, r.total_users_found, r.last_export_time), tbl)
  | none => ((none, false, 0, 0), tbl ++ [defaultStateRow tid])

/-- Modelling `save_state`: `UPDATE state SET next_token, done, total_users_found,
last_request_time=? WHERE tweet_id=?`.  An `UPDATE` touches exactly the
matching rows; with no matching row it is a no-op. -/
def save_state (tbl : List StateRow) (tid : String) (next_token : Option String)
    (done : Bool) (total_users : Nat) (now : Nat) : List StateRow :=
  tbl.map (fun r =>
    if r.tweet_id == tid then
      { r with next_token := next_token, doneInt := if done then 1 else 0,
               total_users_found := total_users, last_request_time := some now }
    else r)

/-- Modelling `update_export_time`: `UPDATE state SET last_export_time=? WHERE tweet_id=?`. -/
def update_export_time (tbl : List StateRow) (tid : String) (now : Nat) : List StateRow :=
  tbl.map (fun r =>
    if r.tweet_id == tid then { r with last_export_time := now } else r)

/-! ## The `ORDER BY user_id` comparator

SQLite compares TEXT values with the default BINARY collation (bytewise);
on our code-point strings this is lexicographic order on the character
codes.  NULLs sort before all non-NULL values in ascending order. -/

/-- Bytewise (code-point) lexicographic `≤` on character lists, the BINARY
collation used by `ORDER BY user_id`. -/
def bytesLe : List Char → List Char → Bool
  | [], _ => true
  | _ :: _, [] => false
  | a :: as, b :: bs =>
      if a.toNat < b.toNat then true
      else if b.toNat < a.toNat then false
      else bytesLe as bs

/-- Comparator on the nullable `user_id` column: NULL first, then BINARY text order. -/
def uidLe : Option String → Option String → Bool
  | none, _ => true
  | some _, none => false
  | some a, some b => bytesLe a.data b.data

/-- Row order used by the export query `ORDER BY user_id`. -/
def rowLe (a b : LikerRow) : Prop := uidLe a.user_id b.user_id = true

instance : DecidableRel rowLe := fun a b => by
  unfold rowLe; infer_instance

/-! ## Page fetching: retry / backoff / rate limit -/

/-- An HTTP response as `fetch_page` consumes it.  `remainingHdr` / `resetHdr`
are the integer values parsed from the `x-rate-limit-remaining` /
`x-rate-limit-reset` headers, `none` when the header is absent (the code
then falls back to the defaults `"1"` / `"0"`).  For a 200 response, `data`
and `next_token` are the parsed `data` list and `meta.next_token`. -/
structure HttpResponse where
  status : Nat
  remainingHdr : Option Nat
  resetHdr : Option Nat
  data : List ApiUser
  next_token : Option String
  deriving DecidableEq, Repr

/-- One outcome of `self.session.get`: a response, or a
`requests.RequestException`. -/
inductive NetResult
  | ok (r : HttpResponse)
  | netError
  deriving DecidableEq, Repr

/-- The parsed page a successful `fetch_page` hands to the run loop:
`data.get('data', [])` and `data.get('meta', \x7b\x7d).get('next_token')`. -/
structure Page where
  data : List ApiUser
  next_token : Option String
  deriving DecidableEq, Repr

/-- The simulation environment: the time (if any) at which the process-wide
`stop_flag` becomes set, and the sampled values of `random.uniform(1, 3)`
(pre-limit jitter) and `random.uniform(0, 1.2)` (backoff jitter), in whole
seconds. -/
structure Env where
  stopTime : Option Nat
  jitter : Nat
  bjitter : Nat
  deriving DecidableEq, Repr

/-- Whether the global `stop_flag` is set at time `t`. -/
def stopSet (stopTime : Option Nat) (t : Nat) : Bool :=
  match stopTime with
  | none => false
  | some s => s ≤ t

/-- The interruptible one-second countdown
`for remaining_sec in range(wait_time, 0, -1): if stop_flag: break; time.sleep(1)`.
Starting at time `now` with `n` seconds to wait, returns the time at which
the loop exits together with the list of times at which `stop_flag` was
polled (the poll happens before each one-second sleep, and once more at the
moment the loop breaks on a set flag). -/
def countdownRun (stopTime : Option Nat) : Nat → Nat → Nat × List Nat
  | now, 0 => (now, [])
  | now, n + 1 =>
      if stopSet stopTime now then (now, [now])
      else
        let r := countdownRun stopTime (now + 1) n
        (r.1, now :: r.2)

/-- Modelling `pace_requests` (production mode): on `remaining ≤ 1` with a nonzero
reset header, run the interruptible countdown for
`max(0, reset - now) + 2` seconds; otherwise on `remaining ≤ 5` sleep the
sampled `random.uniform(1, 3)` jitter.  Returns the time at which control
returns to `fetch_page`. -/
def pace_requests (env : Env) (now remaining reset : Nat) : Nat :=
  if remaining ≤ 1 ∧ reset ≠ 0 then
    (countdownRun env.stopTime now ((reset - now) + 2)).1
  else if remaining ≤ 5 then now + env.jitter
  else now

/-- Modelling `backoff_sleep(attempt)`: sleep `min(300, 2 ** attempt)` plus the sampled
`random.uniform(0, 1.2)` jitter. -/
def backoff_sleep (env : Env) (now attempt : Nat) : Nat :=
  now + (min 300 (2 ^ attempt) + env.bjitter)

/-- The body of `fetch_page`'s `for attempt in range(7)` retry loop.  The
first argument lists the attempt numbers still available; `script` holds the
outcomes the network will produce for successive `session.get` calls.
Returns the parsed page (or `none`, exactly where the source returns `None`),
the unconsumed tail of the script, and the time at which `fetch_page`
returns. -/
def fetchGo (env : Env) : List Nat → List NetResult → Nat →
    Option Page × List NetResult × Nat
  | [], script, now => (none, script, now)
  | attempt :: restAttempts, script, now =>
      match script with
      | [] => (none, [], now)
      | .netError :: rest => fetchGo env restAttempts rest (backoff_sleep env now attempt)
      | .ok r :: rest =>
          let now1 := pace_requests env now (r.remainingHdr.getD 1) (r.resetHdr.getD 0)
          if r.status = 200 then (some ⟨r.data, r.next_token⟩, rest, now1)
          else if r.status = 429 then
            let reset := r.resetHdr.getD 0
            if reset ≠ 0 then
              let delay := max 5 ((reset - now1) + 2)
              let cd := countdownRun env.stopTime now1 delay
              if stopSet env.stopTime cd.1 then (none, rest, cd.1)
              else fetchGo env restAttempts rest cd.1
            else fetchGo env restAttempts rest (backoff_sleep env now1 attempt)
          else if 500 ≤ r.status ∧ r.status < 600 then
            fetchGo env restAttempts rest (backoff_sleep env now1 attempt)
          else (none, rest, now1)

/-- Modelling `fetch_page`: up to 7 attempts. -/
def fetch_page (env : Env) (script : List NetResult) (now : Nat) :
    Option Page × List NetResult × Nat :=
  fetchGo env (List.range 7) script now

/-- Python truthiness of the `next_token` value (`None` and `""` are falsy). -/
def tokenTruthy : Option String → Bool
  | none => false
  | some t => t != ""

/-- The constant query parameters of the liking-users request
(production `max_results = 100`). -/
def base_params : List (String × String) :=
  [("user.fields", "id,name,username,verified,created_at,description,public_metrics"),
   ("max_results", "100")]

/-- The query parameters `fetch_page` sends: `pagination_token` is added
only when `next_token` is truthy (`if next_token:`). -/
def fetch_params (next_token : Option String) : List (String × String) :=
  base_params ++
    (if tokenTruthy next_token then [("pagination_token", next_token.getD "")] else [])

/-- The pagination token actually carried by a parameter list. -/
def paramsToken (ps : List (String × String)) : Option String :=
  (ps.find? (fun p => p.1 == "pagination_token")).map Prod.snd

/-! ## The run loop and CSV export -/

/-- The database, the pending network script, the exports written so far
(filename and row list, in order), and the wall clock. -/
structure Sim where
  likers : List LikerRow
  states : List StateRow
  exports : List (String × List (List String))
  script : List NetResult
  now : Nat
  deriving DecidableEq, Repr

/-- The fixed CSV header row written by `export_csv_with_connection`. -/
def headerRow : List String :=
  ["tweet_id", "user_id", "username", "name", "verified",
   "created_at", "description", "profile_url", "public_metrics"]

/-- The CSV cells written for one `likers` row: `[tweet_id] + list(row)`,
with SQL NULL rendered as the empty cell and the stored integer `verified`
rendered in decimal, as `csv.writer` does. -/
def likerCsvRow (tid : String) (r : LikerRow) : List String :=
  [tid, r.user_id.getD "", r.username.getD "", r.name.getD "",
   Nat.repr r.verified, r.created_at.getD "", r.description,
   r.profile_url, r.public_metrics]

/-- Modelling `SELECT ... FROM likers WHERE tweet_id=?` (no ordering). -/
def rowsFor (likers : List LikerRow) (tid : String) : List LikerRow :=
  likers.filter (fun r => r.tweet_id == tid)

/-- The export query's result: the target's rows `ORDER BY user_id`. -/
def orderedRows (likers : List LikerRow) (tid : String) : List LikerRow :=
  List.insertionSort rowLe (rowsFor likers tid)

/-- The full row sequence an export writes: fixed header, then one CSV row
per stored record, ordered by `user_id`. -/
def exportRows (likers : List LikerRow) (tid : String) : List (List String) :=
  headerRow :: (orderedRows likers tid).map (likerCsvRow tid)

/-- The snapshot filename `f"{tweet_id}_likers_{epoch_suffix}.csv"`:
the current epoch time in final mode, the stable `"current"` otherwise. -/
def csvName (mode : String) (tid : String) (now : Nat) : String :=
  tid ++ "_likers_" ++ (if mode == "final" then Nat.repr now else "current") ++ ".csv"

/-- Modelling `export_csv` on the main connection: write the snapshot and stamp
`last_export_time`. -/
def export_csv (mode : String) (tid : String) (sim : Sim) : Sim :=
  { sim with
    exports := sim.exports ++ [(csvName mode tid sim.now, exportRows sim.likers tid)]
    states := update_export_time sim.states tid sim.now }

/-- The running total after processing one page: `total_users += len(users)`
is executed only under `if users:`, which adds nothing when the payload list
is empty. -/
def pageTotal (total : Nat) (page : Page) : Nat :=
  if page.data.isEmpty then total else total + page.data.length

/-- The simulation state after the loop body breaks on a failed fetch
(`data is None`): the current state is saved with the *current* cursor,
`done=False` and the *current* total. -/
def failStepSim (tid : String) (sim : Sim) (tok : Option String) (total : Nat)
    (script1 : List NetResult) (now1 : Nat) : Sim :=
  { sim with
      script := script1
      now := now1
      states := save_state sim.states tid tok false total now1 }

/-- The simulation state after the loop body processes one successful page:
ingest the users (skipped when the payload is empty), save the new state
(`next_token` from `meta`, `done = not bool(next_token)`, new total), then
elapse the 2-second politeness delay when neither done nor stopped. -/
def pageStepSim (env : Env) (tid : String) (sim : Sim) (total : Nat) (page : Page)
    (script1 : List NetResult) (now1 : Nat) : Sim :=
  let sim1 : Sim := { sim with script := script1, now := now1 }
  let sim2 : Sim :=
    if page.data.isEmpty then sim1
    else { sim1 with likers := insert_users sim1.likers tid page.data }
  let sim3 : Sim :=
    { sim2 with
        states := save_state sim2.states tid page.next_token
          (!tokenTruthy page.next_token) (pageTotal total page) sim2.now }
  if (!tokenTruthy page.next_token) = false ∧ stopSet env.stopTime sim3.now = false then
    { sim3 with now := sim3.now + 2 }
  else sim3

/-- With `QUICK_TEST` unset, the page ceiling is 999999. -/
def max_pages : Nat := 999999

/-- The main `while not done and not stop_flag and page_count < max_pages`
loop.  The first argument is the remaining page budget
(`max_pages - page_count`).  On a failed fetch the current state is saved
unchanged and the loop breaks; on a page the new state is saved and, when
not done and not stopped, the 2-second politeness delay elapses.  Returns
the final simulation state and the page count. -/
def runLoop (env : Env) (tid : String) :
    Nat → Option String → Bool → Nat → Nat → Sim → Sim × Nat
  | 0, _, _, _, pc, sim => (sim, pc)
  | fuel + 1, tok, done, total, pc, sim =>
      if done then (sim, pc)
      else if stopSet env.stopTime sim.now then (sim, pc)
      else
        match fetch_page env sim.script sim.now with
        | (none, script1, now1) => (failStepSim tid sim tok total script1 now1, pc + 1)
        | (some page, script1, now1) =>
            runLoop env tid fuel page.next_token (!tokenTruthy page.next_token)
              (pageTotal total page) (pc + 1)
              (pageStepSim env tid sim total page script1 now1)

/-- The result of `run`: the final simulation state, the page count, and the
final summary count (`SELECT COUNT(*)`), `none` on the early
already-completed return path which skips the summary. -/
structure RunResult where
  sim : Sim
  pageCount : Nat
  finalCount : Option Nat
  deriving DecidableEq, Repr

/-- Modelling `run`: load (or create) the checkpoint; if already done, export
unconditionally and return; otherwise run the collection loop, then in
`final` or `periodic` mode export once if at least one row exists, and
compute the summary count. -/
def run (mode : String) (env : Env) (tid : String) (sim0 : Sim) : RunResult :=
  let g := get_state sim0.states tid
  let sim : Sim := { sim0 with states := g.2 }
  let tok := g.1.1
  let done := g.1.2.1
  let total := g.1.2.2.1
  if done then
    ⟨export_csv mode tid sim, 0, none⟩
  else
    let r := runLoop env tid max_pages tok false total 0 sim
    let rows := (rowsFor r.1.likers tid).length
    let sim1 := if (mode == "final" || mode == "periodic") ∧ rows > 0 then
                  export_csv mode tid r.1
                else r.1
    ⟨sim1, r.2, some ((rowsFor sim1.likers tid).length)⟩

/-! ## Order lemmas for the `ORDER BY user_id` comparator -/

lemma char_toNat_inj {a b : Char} (h : a.toNat = b.toNat) : a = b := by
  have h2 := congrArg Char.ofNat h
  rwa [Char.ofNat_toNat, Char.ofNat_toNat] at h2

lemma bytesLe_total : ∀ a b : List Char, bytesLe a b = true ∨ bytesLe b a = true
  | [], _ => Or.inl rfl
  | _ :: _, [] => Or.inr rfl
  | a :: as, b :: bs => by
      rcases Nat.lt_trichotomy a.toNat b.toNat with h | h | h
      · left; simp [bytesLe, h]
      · rcases bytesLe_total as bs with h2 | h2
        · left; simp [bytesLe, h, h2, Nat.lt_irrefl]
        · right; simp [bytesLe, h, h2, Nat.lt_irrefl]
      · right; simp [bytesLe, h]

lemma bytesLe_trans : ∀ a b c : List Char,
    bytesLe a b = true → bytesLe b c = true → bytesLe a c = true
  | [], _, _, _, _ => rfl
  | _ :: _, [], _, h1, _ => by simp [bytesLe] at h1
  | _ :: _, _ :: _, [], _, h2 => by simp [bytesLe] at h2
  | a :: as, b :: bs, c :: cs, h1, h2 => by
      simp only [bytesLe] at h1 h2 ⊢
      rcases Nat.lt_trichotomy a.toNat b.toNat with hab | hab | hab
      · rcases Nat.lt_trichotomy b.toNat c.toNat with hbc | hbc | hbc
        · have hac : a.toNat < c.toNat := Nat.lt_trans hab hbc
          simp [hac]
        · have hac : a.toNat < c.toNat := hbc ▸ hab
          simp [hac]
        · rw [if_neg (by omega), if_pos hbc] at h2
          exact absurd h2 (by simp)
      · rcases Nat.lt_trichotomy b.toNat c.toNat with hbc | hbc | hbc
        · have hac : a.toNat < c.toNat := by omega
          simp [hac]
        · rw [if_neg (by omega), if_neg (by omega)] at h1 h2 ⊢
          exact bytesLe_trans as bs cs h1 h2
        · rw [if_neg (by omega), if_pos hbc] at h2
          exact absurd h2 (by simp)
      · rw [if_neg (by omega), if_pos hab] at h1
        exact absurd h1 (by simp)

lemma bytesLe_antisymm : ∀ a b : List Char,
    bytesLe a b = true → bytesLe b a = true → a = b
  | [], [], _, _ => rfl
  | [], _ :: _, _, h2 => by simp [bytesLe] at h2
  | _ :: _, [], h1, _ => by simp [bytesLe] at h1
  | a :: as, b :: bs, h1, h2 => by
      simp only [bytesLe] at h1 h2
      rcases Nat.lt_trichotomy a.toNat b.toNat with h | h | h
      · rw [if_neg (by omega), if_pos h] at h2
        exact absurd h2 (by simp)
      · rw [if_neg (by omega), if_neg (by omega)] at h1 h2
        rw [char_toNat_inj h, bytesLe_antisymm as bs h1 h2]
      · rw [if_neg (by omega), if_pos h] at h1
        exact absurd h1 (by simp)

lemma uidLe_total : ∀ x y : Option String, uidLe x y = true ∨ uidLe y x = true
  | none, _ => Or.inl rfl
  | some _, none => Or.inr rfl
  | some a, some b => bytesLe_total a.data b.data

lemma uidLe_trans : ∀ x y z : Option String,
    uidLe x y = true → uidLe y z = true → uidLe x z = true
  | none, _, _, _, _ => rfl
  | some _, none, _, h1, _ => by simp [uidLe] at h1
  | some _, some _, none, _, h2 => by simp [uidLe] at h2
  | some a, some b, some c, h1, h2 => bytesLe_trans a.data b.data c.data h1 h2

lemma uidLe_antisymm : ∀ x y : Option String,
    uidLe x y = true → uidLe y x = true → x = y
  | none, none, _, _ => rfl
  | none, some _, _, h2 => by simp [uidLe] at h2
  | some _, none, h1, _ => by simp [uidLe] at h1
  | some a, some b, h1, h2 =>
      congrArg some (String.ext (bytesLe_antisymm a.data b.data h1 h2))

instance : IsTotal LikerRow rowLe := ⟨fun a b => uidLe_total a.user_id b.user_id⟩

instance : IsTrans LikerRow rowLe :=
  ⟨fun a b c => uidLe_trans a.user_id b.user_id c.user_id⟩

/-! ## Record store lemmas and claim C2 -/

lemma insertOrIgnore_none {tbl : List LikerRow} {r : LikerRow}
    (h : r.user_id = none) : insertOrIgnore tbl r = tbl := by
  unfold insertOrIgnore
  rw [h]

lemma insertOrIgnore_already {tbl : List LikerRow} {r : LikerRow}
    (h : tbl.any (fun x => keysConflict x r) = true) : insertOrIgnore tbl r = tbl := by
  unfold insertOrIgnore
  cases r.user_id with
  | none => rfl
  | some s => simp [h]

lemma keysConflict_self (r : LikerRow) : keysConflict r r = true := by
  simp [keysConflict]

lemma insertOrIgnore_twice (tbl : List LikerRow) (r : LikerRow) :
    insertOrIgnore (insertOrIgnore tbl r) r = insertOrIgnore tbl r := by
  cases hu : r.user_id with
  | none => rw [insertOrIgnore_none hu, insertOrIgnore_none hu]
  | some s =>
      by_cases h : tbl.any (fun x => keysConflict x r) = true
      · rw [insertOrIgnore_already h, insertOrIgnore_already h]
      · have h1 : insertOrIgnore tbl r = tbl ++ [r] := by
          unfold insertOrIgnore
          rw [hu]
          simp [h]
        rw [h1]
        apply insertOrIgnore_already
        simp [keysConflict_self]

/-- The three user objects of the end-to-end scenario. -/
def userA : ApiUser :=
  { id := some "a", username := none, name := none, verified := false,
    created_at := none, description := none, public_metrics := none }

def userB : ApiUser :=
  { id := some "b", username := none, name := none, verified := false,
    created_at := none, description := none, public_metrics := none }

def userC : ApiUser :=
  { id := some "c", username := none, name := none, verified := false,
    created_at := none, description := none, public_metrics := none }

/-- Claim C2.  Idempotent ingestion: for every target and every record,
inserting the same record twice via `insert_users` leaves the store's
record count for the target unchanged and the stored content unchanged —
the resulting table is identical, whether the re-insert happens in a later
call or twice within one call, so the duplicate insert is a no-op, never an
overwrite, and never an error (the model is a total function).  A record
with a present id is deduplicated by the `(tweet_id, user_id)` primary key;
a record with no id offers SQL NULL to the `user_id TEXT NOT NULL` column,
so `INSERT OR IGNORE` silently skips it on every insert. -/
theorem c2_idempotent_ingestion (tbl : List LikerRow) (tid : String) (u : ApiUser) :
    insert_users (insert_users tbl tid [u]) tid [u] = insert_users tbl tid [u] ∧
    insert_users tbl tid [u, u] = insert_users tbl tid [u] :=
  ⟨insertOrIgnore_twice tbl (mkLikerRow tid u),
   insertOrIgnore_twice tbl (mkLikerRow tid u)⟩

/-! ## Checkpoint store lemmas and claim C10 -/

/-- Claim C10.  For a target with no checkpoint row, `save_state` is a total
no-op: the `UPDATE ... WHERE tweet_id=?` matches zero rows, raises nothing
(the model is a total function), creates no row, and leaves the table
entirely unchanged.  Conversely, once `get_state` has created the default
row, the same `save_state` call updates it as expected. -/
theorem c10_save_state_missing_row (tbl : List StateRow) (tid : String)
    (tok : Option String) (d : Bool) (n t : Nat)
    (h : ∀ r ∈ tbl, r.tweet_id ≠ tid) :
    save_state tbl tid tok d n t = tbl ∧
    findState (save_state (get_state tbl tid).2 tid tok d n t) tid =
      some { tweet_id := tid, next_token := tok, doneInt := if d then 1 else 0,
             last_request_time := some t, total_users_found := n,
             last_export_time := 0 } := by
  have hbeq : ∀ r ∈ tbl, (r.tweet_id == tid) = false :=
    fun r hr => beq_eq_false_iff_ne.mpr (h r hr)
  have hmapid : save_state tbl tid tok d n t = tbl := by
    unfold save_state
    rw [List.map_congr_left (g := id) (fun r hr => by simp [hbeq r hr]), List.map_id]
  refine ⟨hmapid, ?_⟩
  have hfind : findState tbl tid = none :=
    List.find?_eq_none.mpr (fun r hr => by simp [hbeq r hr])
  unfold get_state
  rw [hfind]
  simp only [save_state, List.map_append]
  rw [List.map_congr_left (g := id) (fun r hr => by simp [hbeq r hr]), List.map_id]
  unfold findState
  rw [List.find?_append]
  rw [List.find?_eq_none.mpr (fun r hr => by simp [hbeq r hr])]
  simp [defaultStateRow]

/-- Claim C10, witness. -/
theorem c10_save_state_missing_row_witness :
    save_state [{ tweet_id := "other", next_token := none, doneInt := 0,
                  last_request_time := none, total_users_found := 0,
                  last_export_time := 0 }] "42" (some "X") true 7 9 =
      [{ tweet_id := "other", next_token := none, doneInt := 0,
         last_request_time := none, total_users_found := 0,
         last_export_time := 0 }] :=
  (c10_save_state_missing_row _ "42" (some "X") true 7 9 (by decide)).1

/-! ## Unfolding lemmas for the run loop -/

lemma runLoop_zero (env : Env) (tid : String) (tok : Option String) (done : Bool)
    (total pc : Nat) (sim : Sim) :
    runLoop env tid 0 tok done total pc sim = (sim, pc) := rfl

lemma runLoop_succ_done (env : Env) (tid : String) (fuel : Nat) (tok : Option String)
    (total pc : Nat) (sim : Sim) :
    runLoop env tid (fuel + 1) tok true total pc sim = (sim, pc) := by
  simp [runLoop]

lemma runLoop_succ_stop (env : Env) (tid : String) (fuel : Nat) (tok : Option String)
    (total pc : Nat) (sim : Sim) (hs : stopSet env.stopTime sim.now = true) :
    runLoop env tid (fuel + 1) tok false total pc sim = (sim, pc) := by
  simp [runLoop, hs]

lemma runLoop_succ_none (env : Env) (tid : String) (fuel : Nat) (tok : Option String)
    (total pc : Nat) (sim : Sim) (script1 : List NetResult) (now1 : Nat)
    (hs : stopSet env.stopTime sim.now = false)
    (hf : fetch_page env sim.script sim.now = (none, script1, now1)) :
    runLoop env tid (fuel + 1) tok false total pc sim =
      (failStepSim tid sim tok total script1 now1, pc + 1) := by
  simp [runLoop, hs, hf]

lemma runLoop_succ_some (env : Env) (tid : String) (fuel : Nat) (tok : Option String)
    (total pc : Nat) (sim : Sim) (page : Page) (script1 : List NetResult) (now1 : Nat)
    (hs : stopSet env.stopTime sim.now = false)
    (hf : fetch_page env sim.script sim.now = (some page, script1, now1)) :
    runLoop env tid (fuel + 1) tok false total pc sim =
      runLoop env tid fuel page.next_token (!tokenTruthy page.next_token)
        (pageTotal total page) (pc + 1) (pageStepSim env tid sim total page script1 now1) := by
  simp [runLoop, hs, hf]

/-! ## Projection lemmas for the loop-body step functions -/

lemma pageStepSim_states (env : Env) (tid : String) (sim : Sim) (total : Nat)
    (page : Page) (script1 : List NetResult) (now1 : Nat) :
    (pageStepSim env tid sim total page script1 now1).states =
      save_state sim.states tid page.next_token (!tokenTruthy page.next_token)
        (pageTotal total page) now1 := by
  unfold pageStepSim
  by_cases he : page.data.isEmpty = true <;>
    simp only [he, Bool.false_eq_true, if_true, if_false] <;>
    split <;> rfl

lemma pageStepSim_exports (env : Env) (tid : String) (sim : Sim) (total : Nat)
    (page : Page) (script1 : List NetResult) (now1 : Nat) :
    (pageStepSim env tid sim total page script1 now1).exports = sim.exports := by
  unfold pageStepSim
  by_cases he : page.data.isEmpty = true <;>
    simp only [he, Bool.false_eq_true, if_true, if_false] <;>
    split <;> rfl

lemma pageStepSim_likers (env : Env) (tid : String) (sim : Sim) (total : Nat)
    (page : Page) (script1 : List NetResult) (now1 : Nat) :
    (pageStepSim env tid sim total page script1 now1).likers =
      (if page.data.isEmpty then sim.likers
       else insert_users sim.likers tid page.data) := by
  unfold pageStepSim
  by_cases he : page.data.isEmpty = true <;>
    simp only [he, Bool.false_eq_true, if_true, if_false] <;>
    split <;> rfl

lemma pageStepSim_script (env : Env) (tid : String) (sim : Sim) (total : Nat)
    (page : Page) (script1 : List NetResult) (now1 : Nat) :
    (pageStepSim env tid sim total page script1 now1).script = script1 := by
  unfold pageStepSim
  by_cases he : page.data.isEmpty = true <;>
    simp only [he, Bool.false_eq_true, if_true, if_false] <;>
    split <;> rfl

/-! ## Countdown and pacing lemmas, claim C6 -/

lemma countdownRun_none_fst (n now : Nat) : (countdownRun none now n).1 = now + n := by
  induction n generalizing now with
  | zero => rfl
  | succ n ih =>
      simp only [countdownRun, stopSet, Bool.false_eq_true, if_false]
      rw [ih (now + 1)]
      omega

lemma countdownRun_covers (st : Option Nat) :
    ∀ (n now t : Nat), now ≤ t → t < (countdownRun st now n).1 →
      t ∈ (countdownRun st now n).2 := by
  intro n
  induction n with
  | zero =>
      intro now t h1 h2
      simp only [countdownRun] at h2
      exact absurd h2 (Nat.not_lt.mpr h1)
  | succ n ih =>
      intro now t h1 h2
      by_cases hs : stopSet st now = true
      · simp only [countdownRun, hs, if_true] at h2
        exact absurd h2 (Nat.not_lt.mpr h1)
      · rw [Bool.not_eq_true] at hs
        simp only [countdownRun, hs, Bool.false_eq_true, if_false] at h2 ⊢
        rcases Nat.eq_or_lt_of_le h1 with he | hlt
        · exact he ▸ List.mem_cons_self _ _
        · exact List.mem_cons_of_mem _ (ih (now + 1) t hlt h2)

/-- Claim C6.  For a successful response whose rate-limit headers carry
`remaining = 0` and `reset = T`, `pace_requests` does not return control to
`fetch_page` — so no next fetch attempt can be issued — before `T + 2`
(when no stop signal interrupts; `1 ≤ now` holds of any epoch clock after
the first second, and the sampled `random.uniform(1, 3)` jitter is at least
one second); and during the rate-limit wait (`T ≠ 0`) the cooperative stop
flag is polled at every second of the wait. -/
theorem c6_rate_limit_wait (env : Env) (now T : Nat) (hnow : 1 ≤ now)
    (hjit : 1 ≤ env.jitter) :
    (env.stopTime = none → T + 2 ≤ pace_requests env now 0 T) ∧
    (T ≠ 0 → ∀ t, now ≤ t →
      t < (countdownRun env.stopTime now ((T - now) + 2)).1 →
      t ∈ (countdownRun env.stopTime now ((T - now) + 2)).2) := by
  constructor
  · intro hstop
    unfold pace_requests
    by_cases hT : T = 0
    · subst hT
      simp only [Nat.zero_le, ne_eq, not_true_eq_false, and_false, if_false, true_and,
        Nat.le_refl, if_pos]
      omega
    · rw [if_pos ⟨Nat.zero_le 1, hT⟩, hstop, countdownRun_none_fst]
      omega
  · intro _ t h1 h2
    exact countdownRun_covers env.stopTime _ now t h1 h2

/-- Claim C6, witness, at now 1, reset 5, no stop signal, jitter 1s:
the wait runs to `1 + ((5 - 1) + 2) = 7 = T + 2`. -/
theorem c6_rate_limit_wait_witness :
    5 + 2 ≤ pace_requests { stopTime := none, jitter := 1, bjitter := 0 } 1 0 5 :=
  (c6_rate_limit_wait { stopTime := none, jitter := 1, bjitter := 0 } 1 5
    (by decide) (by decide)).1 rfl

/-! ## Claim C3: resuming uses exactly the saved cursor -/

lemma paramsToken_fetch_params : ∀ tok : Option String, tok ≠ some "" →
    paramsToken (fetch_params tok) = tok
  | none, _ => rfl
  | some c, h => by
      have hc : c ≠ "" := fun he => h (by rw [he])
      have ht : tokenTruthy (some c) = true := by
        simp [tokenTruthy, bne_iff_ne, hc]
      simp [fetch_params, ht, paramsToken, base_params]

/-- Checkpoint rows the program can have persisted for `tid`: a row left
with `done=false` never holds the degenerate cursor `some ""` (the loop
computes `done = not bool(next_token)`, and `""` is falsy). -/
def savedOk (states : List StateRow) (tid : String) : Prop :=
  ∀ r ∈ states, r.tweet_id = tid → r.doneInt = 0 → r.next_token ≠ some ""

lemma tokenTruthy_false_of {p : Option String} (h : (!tokenTruthy p) = false) :
    p ≠ some "" := by
  intro he
  subst he
  simp [tokenTruthy] at h

lemma savedOk_save_state {states : List StateRow} {tid : String}
    (tok : Option String) (done : Bool) (total now : Nat)
    (h : savedOk states tid) (htok : done = false → tok ≠ some "") :
    savedOk (save_state states tid tok done total now) tid := by
  intro r hr
  simp only [save_state, List.mem_map] at hr
  obtain ⟨x, hx, rfl⟩ := hr
  by_cases hm : (x.tweet_id == tid) = true
  · simp only [hm, if_true]
    intro _ hrd
    cases done with
    | false => simpa using htok rfl
    | true => simp at hrd
  · simp only [hm, Bool.false_eq_true, if_false]
    exact h x hx

lemma savedOk_update_export_time {states : List StateRow} {tid : String} (now : Nat)
    (h : savedOk states tid) :
    savedOk (update_export_time states tid now) tid := by
  intro r hr
  simp only [update_export_time, List.mem_map] at hr
  obtain ⟨x, hx, rfl⟩ := hr
  by_cases hm : (x.tweet_id == tid) = true
  · simp only [hm, if_true]
    exact h x hx
  · simp only [hm, Bool.false_eq_true, if_false]
    exact h x hx

lemma savedOk_get_state {states : List StateRow} {tid : String}
    (h : savedOk states tid) :
    savedOk (get_state states tid).2 tid := by
  unfold get_state
  cases hf : findState states tid with
  | some r => exact h
  | none =>
      intro r hr
      rcases List.mem_append.mp hr with hm | hm
      · exact h r hm
      · rcases List.mem_singleton.mp hm with rfl
        intro _ _
        simp [defaultStateRow]

lemma runLoop_savedOk (env : Env) (tid : String) :
    ∀ (fuel : Nat) (tok : Option String) (done : Bool) (total pc : Nat) (sim : Sim),
    (done = false → tok ≠ some "") → savedOk sim.states tid →
    savedOk ((runLoop env tid fuel tok done total pc sim).1).states tid := by
  intro fuel
  induction fuel with
  | zero => intro tok done total pc sim _ h2; exact h2
  | succ fuel ih =>
      intro tok done total pc sim h1 h2
      cases done with
      | true => rw [runLoop_succ_done]; exact h2
      | false =>
          by_cases hs : stopSet env.stopTime sim.now = true
          · rw [runLoop_succ_stop env tid fuel tok total pc sim hs]; exact h2
          · rw [Bool.not_eq_true] at hs
            rcases hfp : fetch_page env sim.script sim.now with ⟨res, script1, now1⟩
            cases res with
            | none =>
                rw [runLoop_succ_none env tid fuel tok total pc sim script1 now1 hs hfp]
                exact savedOk_save_state tok false total now1 h2 h1
            | some page =>
                rw [runLoop_succ_some env tid fuel tok total pc sim page script1 now1 hs hfp]
                apply ih
                · exact fun hd => tokenTruthy_false_of hd
                · rw [pageStepSim_states]
                  exact savedOk_save_state _ _ _ _ h2 (fun hd => tokenTruthy_false_of hd)

/-- Claim C3.  Checkpoint resumability.  Part 1: `get_state` hands back exactly
the stored cursor of the existing row.  Part 2: for any cursor the program
can have persisted (any value except the degenerate `some ""`, which part 3
shows is never persisted with `done=false`), the restarted loop's next fetch
carries `pagination_token` exactly equal to that cursor (`none` meaning the
request is issued without a pagination token, i.e. from the first page, as a
`cursor=None` checkpoint demands).  Part 3: a full `run` preserves the
invariant that no checkpoint row for the target with `done=false` holds
cursor `some ""`. -/
theorem c3_resume_uses_saved_cursor :
    (∀ (tbl : List StateRow) (tid : String) (row : StateRow),
        findState tbl tid = some row → (get_state tbl tid).1.1 = row.next_token) ∧
    (∀ tok : Option String, tok ≠ some "" → paramsToken (fetch_params tok) = tok) ∧
    (∀ (mode : String) (env : Env) (tid : String) (sim0 : Sim),
        savedOk sim0.states tid → savedOk (run mode env tid sim0).sim.states tid) := by
  refine ⟨?_, paramsToken_fetch_params, ?_⟩
  · intro tbl tid row hf
    unfold get_state
    rw [hf]
  · intro mode env tid sim0 h0
    unfold run
    have hg : savedOk (get_state sim0.states tid).2 tid := savedOk_get_state h0
    by_cases hd : (get_state sim0.states tid).1.2.1 = true
    · simp only [hd, if_true]
      exact savedOk_update_export_time _ hg
    · rw [Bool.not_eq_true] at hd
      simp only [hd, Bool.false_eq_true, if_false]
      have htok : (false : Bool) = false → (get_state sim0.states tid).1.1 ≠ some "" := by
        intro _
        unfold get_state at hd ⊢
        cases hf : findState sim0.states tid with
        | none => simp
        | some r =>
            rw [hf] at hd
            simp only [hf]
            have hrt : r.tweet_id = tid := by
              have := List.find?_some hf
              simpa using this
            have hrm : r ∈ sim0.states := List.mem_of_find?_eq_some hf
            have hdone : r.doneInt = 0 := by
              simp only [hf] at hd
              simpa using hd
            exact h0 r hrm hrt hdone
      have hloop := runLoop_savedOk env tid max_pages (get_state sim0.states tid).1.1
        false (get_state sim0.states tid).1.2.2.1 0
        { sim0 with states := (get_state sim0.states tid).2 } htok hg
      by_cases hex : ((mode == "final" || mode == "periodic") = true) ∧
          (rowsFor ((runLoop env tid max_pages (get_state sim0.states tid).1.1 false
            (get_state sim0.states tid).1.2.2.1 0
            { sim0 with states := (get_state sim0.states tid).2 }).1).likers tid).length > 0
      · rw [if_pos hex]
        exact savedOk_update_export_time _ hloop
      · rw [if_neg hex]
        exact hloop

/-- Claim C3, witness. -/
theorem c3_resume_uses_saved_cursor_witness :
    paramsToken (fetch_params (some "C")) = some "C" :=
  c3_resume_uses_saved_cursor.2.1 (some "C") (by decide)

/-! ## Claim C4: non-retryable client errors -/

lemma fetch_page_client_error (env : Env) (r : HttpResponse) (rest : List NetResult)
    (now : Nat) (h4 : 400 ≤ r.status) (h4' : r.status < 500) (h429 : r.status ≠ 429) :
    fetch_page env (.ok r :: rest) now =
      (none, rest, pace_requests env now (r.remainingHdr.getD 1) (r.resetHdr.getD 0)) := by
  have h200 : ¬r.status = 200 := by omega
  have h5xx : ¬(500 ≤ r.status ∧ r.status < 600) := by omega
  unfold fetch_page
  rw [show List.range 7 = 0 :: [1, 2, 3, 4, 5, 6] from rfl]
  simp [fetchGo, h200, h429, h5xx]

lemma findState_save_state (tbl : List StateRow) (tid : String) (tok : Option String)
    (d : Bool) (n t : Nat) :
    findState (save_state tbl tid tok d n t) tid =
      (findState tbl tid).map (fun r =>
        { r with next_token := tok, doneInt := if d then 1 else 0,
                 total_users_found := n, last_request_time := some t }) := by
  induction tbl with
  | nil => rfl
  | cons x xs ih =>
      by_cases hx : (x.tweet_id == tid) = true
      · simp [save_state, findState, List.find?, hx] at ih ⊢
      · simp [save_state, findState, List.find?, hx] at ih ⊢
        exact ih

lemma findState_update_export_time (tbl : List StateRow) (tid : String) (t : Nat) :
    findState (update_export_time tbl tid t) tid =
      (findState tbl tid).map (fun r => { r with last_export_time := t }) := by
  induction tbl with
  | nil => rfl
  | cons x xs ih =>
      by_cases hx : (x.tweet_id == tid) = true
      · simp [update_export_time, findState, List.find?, hx] at ih ⊢
      · simp [update_export_time, findState, List.find?, hx] at ih ⊢
        exact ih

lemma findState_export_csv (mode tid : String) (sim : Sim) :
    findState (export_csv mode tid sim).states tid =
      (findState sim.states tid).map (fun r => { r with last_export_time := sim.now }) :=
  findState_update_export_time sim.states tid sim.now

/-- Claim C4.  On an HTTP 4xx response other than 429, `fetch_page` returns the
terminal failure signal immediately — the response after it in the network
script is not consumed, i.e. there is no retry — and the run saves the
checkpoint with the current cursor, `done=false` and the current count
unchanged, halts this target's collection after that single page attempt,
and still reaches its final summary (the process is not terminated). -/
theorem c4_client_error_halts (mode : String) (env : Env) (tid : String) (sim0 : Sim)
    (row : StateRow) (r : HttpResponse) (rest : List NetResult)
    (hfind : findState sim0.states tid = some row) (hdone : row.doneInt = 0)
    (hstop : stopSet env.stopTime sim0.now = false)
    (hscript : sim0.script = .ok r :: rest)
    (h4 : 400 ≤ r.status) (h4' : r.status < 500) (h429 : r.status ≠ 429) :
    (run mode env tid sim0).pageCount = 1 ∧
    (run mode env tid sim0).sim.script = rest ∧
    (run mode env tid sim0).finalCount.isSome = true ∧
    ∃ r', findState (run mode env tid sim0).sim.states tid = some r' ∧
      r'.next_token = row.next_token ∧ r'.doneInt = 0 ∧
      r'.total_users_found = row.total_users_found := by
  have hget : get_state sim0.states tid =
      ((row.next_token, false, row.total_users_found, row.last_export_time),
        sim0.states) := by
    unfold get_state
    rw [hfind]
    simp [hdone]
  have heta : ({ sim0 with states := sim0.states } : Sim) = sim0 := rfl
  have hf : fetch_page env sim0.script sim0.now =
      (none, rest, pace_requests env sim0.now (r.remainingHdr.getD 1) (r.resetHdr.getD 0)) := by
    rw [hscript]
    exact fetch_page_client_error env r rest sim0.now h4 h4' h429
  have hrl : runLoop env tid max_pages row.next_token false row.total_users_found 0 sim0 =
      (failStepSim tid sim0 row.next_token row.total_users_found rest
        (pace_requests env sim0.now (r.remainingHdr.getD 1) (r.resetHdr.getD 0)), 1) := by
    rw [show max_pages = 999998 + 1 from rfl]
    rw [runLoop_succ_none env tid 999998 row.next_token row.total_users_found 0 sim0
      rest _ hstop hf]
  have hrun : run mode env tid sim0 =
      (let simF := failStepSim tid sim0 row.next_token row.total_users_found rest
        (pace_requests env sim0.now (r.remainingHdr.getD 1) (r.resetHdr.getD 0))
       let rows := (rowsFor simF.likers tid).length
       let sim1 := if (mode == "final" || mode == "periodic") ∧ rows > 0 then
                     export_csv mode tid simF
                   else simF
       (⟨sim1, 1, some ((rowsFor sim1.likers tid).length)⟩ : RunResult)) := by
    unfold run
    rw [hget]
    simp only [Bool.false_eq_true, if_false, heta, hrl]
  rw [hrun]
  simp only []
  have hfs : findState (failStepSim tid sim0 row.next_token row.total_users_found rest
      (pace_requests env sim0.now (r.remainingHdr.getD 1) (r.resetHdr.getD 0))).states tid =
      some { row with
              next_token := row.next_token
              doneInt := if false then 1 else 0
              total_users_found := row.total_users_found
              last_request_time :=
                some (pace_requests env sim0.now (r.remainingHdr.getD 1)
                  (r.resetHdr.getD 0)) } := by
    show findState (save_state sim0.states tid row.next_token false row.total_users_found _) tid = _
    rw [findState_save_state, hfind]
    rfl
  by_cases hex : ((mode == "final" || mode == "periodic") = true) ∧
      (rowsFor (failStepSim tid sim0 row.next_token row.total_users_found rest
        (pace_requests env sim0.now (r.remainingHdr.getD 1) (r.resetHdr.getD 0))).likers
          tid).length > 0
  · rw [if_pos hex]
    refine ⟨trivial, rfl, rfl, ?_⟩
    rw [findState_export_csv, hfs]
    exact ⟨_, rfl, rfl, rfl, rfl⟩
  · rw [if_neg hex]
    refine ⟨trivial, rfl, rfl, ?_⟩
    rw [hfs]
    exact ⟨_, rfl, rfl, rfl, rfl⟩

/-- The fresh checkpoint row used by concrete scenarios. -/
def freshRow42 : StateRow :=
  { tweet_id := "42"
    next_token := none
    doneInt := 0
    last_request_time := none
    total_users_found := 0
    last_export_time := 0 }

/-- A 403 response. -/
def resp403 : HttpResponse :=
  { status := 403
    remainingHdr := none
    resetHdr := none
    data := []
    next_token := none }

/-- The start state for the C4 witness scenario. -/
def c4Sim0 : Sim :=
  { likers := []
    states := [freshRow42]
    exports := []
    script := [.ok resp403]
    now := 0 }

/-- Claim C4, witness: a 403 on the very first page of a fresh target. -/
theorem c4_client_error_halts_witness :
    (run "final" { stopTime := none, jitter := 1, bjitter := 0 } "42"
      c4Sim0).pageCount = 1 :=
  (c4_client_error_halts "final" { stopTime := none, jitter := 1, bjitter := 0 } "42"
    c4Sim0 freshRow42 resp403 [] (by decide) (by decide) (by decide) (by decide)
    (by decide) (by decide) (by decide)).1

/-! ## Claim C1: the end-to-end scenario -/

/-- Page 1 of the scenario: `{data: [{id:"a"},{id:"b"}], meta: {next_token:"X"}}`. -/
def page1Resp : HttpResponse :=
  { status := 200, remainingHdr := none, resetHdr := none,
    data := [userA, userB], next_token := some "X" }

/-- Page 2 of the scenario: `{data: [{id:"c"}], meta: {}}`. -/
def page2Resp : HttpResponse :=
  { status := 200, remainingHdr := none, resetHdr := none,
    data := [userC], next_token := none }

/-- The scenario start: fresh database, clock at 0. -/
def e2eSim0 : Sim :=
  { likers := [], states := [], exports := [],
    script := [.ok page1Resp, .ok page2Resp], now := 0 }

def e2eEnv : Env := { stopTime := none, jitter := 1, bjitter := 0 }

/-- Claim C1.  End-to-end scenario for target `"42"`: after the two scripted
pages the loop terminates with the checkpoint holding `record_count = 3`
and `done = true` (stored as 1), and the single exported snapshot holds
exactly the header plus 3 rows for records a, b, c in that order. -/
theorem c1_end_to_end :
    (run "final" e2eEnv "42" e2eSim0).pageCount = 2 ∧
    findState (run "final" e2eEnv "42" e2eSim0).sim.states "42" =
      some { tweet_id := "42", next_token := none, doneInt := 1,
             last_request_time := some 4, total_users_found := 3,
             last_export_time := 4 } ∧
    (run "final" e2eEnv "42" e2eSim0).sim.exports =
      [("42_likers_4.csv",
        [headerRow,
         ["42", "a", "", "", "0", "", "", "", "\x7b\x7d"],
         ["42", "b", "", "", "0", "", "", "", "\x7b\x7d"],
         ["42", "c", "", "", "0", "", "", "", "\x7b\x7d"]])] := by
  refine ⟨by decide, by decide, by decide⟩

/-! ## Claim C5: what the fetch result can and cannot distinguish -/

/-- A 429 response carrying a reset header, with plenty of calls remaining
reported (so `pace_requests` itself does not wait). -/
def resp429 : HttpResponse :=
  { status := 429
    remainingHdr := some 50
    resetHdr := some 200
    data := []
    next_token := none }

/-- The environment in which the stop flag is raised at time 100, during the
429 reset wait. -/
def stopEnv : Env := { stopTime := some 100, jitter := 1, bjitter := 0 }

/-- Claim C5, counterexample.  Here `fetch_page` does *not* distinguish three
outcomes.  When the stop flag interrupts the 429 reset wait the function
returns `None` — the very same value it returns for a terminal 4xx
failure — so the collection loop cannot tell the interrupted halt from the
error halt by looking at the fetch result (and indeed handles both
identically).  The claimed three-valued result type does not exist in the
code: the result is `Dict`-or-`None`. -/
theorem c5_counterexample :
    (fetch_page stopEnv [.ok resp429] 0).1 = none ∧
    (fetch_page e2eEnv [.ok resp403] 0).1 = none ∧
    (fetch_page stopEnv [.ok resp429] 0).1 = (fetch_page e2eEnv [.ok resp403] 0).1 := by
  refine ⟨by decide, by decide, by decide⟩

/-- Claim C5, amended.  The `fetch_page` result distinguishes only two
outcomes: a `Page`, or the single `None` signal, which covers *both* the
stop-interrupted wait and the terminal fetch failure.  On `None` the
collection loop saves the checkpoint unchanged (current cursor,
`done=false`, current count) and halts that target without terminating the
process; interrupted versus error can only be told from the stop flag, not
from the fetch result. -/
theorem c5_none_covers_stop_and_failure :
    (fetch_page stopEnv [.ok resp429] 5).1 = none ∧
    (∀ (env : Env) (r : HttpResponse) (rest : List NetResult) (now : Nat),
        400 ≤ r.status → r.status < 500 → r.status ≠ 429 →
        (fetch_page env (.ok r :: rest) now).1 = none) ∧
    (∀ (env : Env) (tid : String) (fuel : Nat) (tok : Option String)
        (total pc : Nat) (sim : Sim) (script1 : List NetResult) (now1 : Nat),
        stopSet env.stopTime sim.now = false →
        fetch_page env sim.script sim.now = (none, script1, now1) →
        runLoop env tid (fuel + 1) tok false total pc sim =
          (failStepSim tid sim tok total script1 now1, pc + 1)) := by
  refine ⟨by decide, ?_, ?_⟩
  · intro env r rest now h4 h4' h429
    rw [fetch_page_client_error env r rest now h4 h4' h429]
  · intro env tid fuel tok total pc sim script1 now1 hs hf
    exact runLoop_succ_none env tid fuel tok total pc sim script1 now1 hs hf

/-- Claim C5, witness. -/
theorem c5_none_covers_stop_and_failure_witness :
    (fetch_page e2eEnv (.ok resp403 :: []) 0).1 = none :=
  c5_none_covers_stop_and_failure.2.1 e2eEnv resp403 [] 0
    (by decide) (by decide) (by decide)

/-! ## Claim C9: the checkpoint count counts duplicates -/

/-- The checkpoint of a run that already ingested records a, b and stopped
with cursor "X". -/
def c9Row : StateRow :=
  { tweet_id := "42"
    next_token := some "X"
    doneInt := 0
    last_request_time := some 1
    total_users_found := 2
    last_export_time := 0 }

/-- The replayed page: b again (a duplicate the store will skip) and c. -/
def c9Resp : HttpResponse :=
  { status := 200
    remainingHdr := none
    resetHdr := none
    data := [userB, userC]
    next_token := none }

/-- Resume state: records a, b already stored, checkpoint count 2. -/
def c9Sim0 : Sim :=
  { likers := [mkLikerRow "42" userA, mkLikerRow "42" userB]
    states := [c9Row]
    exports := []
    script := [.ok c9Resp]
    now := 10 }

/-- Claim C9.  The count persisted after a page is always the previous count
plus the full payload length (`total_users += len(users)`, with the
`if users:` guard adding nothing for an empty payload), counting duplicate
records the store skips.  Concretely, resuming with checkpoint count 2 and
store `{a, b}` and refetching a page `[b, c]` persists `record_count = 4`
while the deduplicated store holds only 3 records: the checkpoint count
exceeds `count(target)`. -/
theorem c9_count_includes_duplicates :
    (∀ (total : Nat) (page : Page), pageTotal total page = total + page.data.length) ∧
    findState (run "final" e2eEnv "42" c9Sim0).sim.states "42" =
      some { tweet_id := "42", next_token := none, doneInt := 1,
             last_request_time := some 11, total_users_found := 4,
             last_export_time := 11 } ∧
    (rowsFor (run "final" e2eEnv "42" c9Sim0).sim.likers "42").length = 3 := by
  refine ⟨?_, by decide, by decide⟩
  intro total page
  rcases page with ⟨data, tok⟩
  cases data <;> simp [pageTotal]

/-! ## Claim C7: deterministic export ordering -/

/-- Strict-on-distinct-keys companion of `rowLe`, used to identify sorted
enumerations of a key-distinct row multiset. -/
def rowLeNe (a b : LikerRow) : Prop := rowLe a b ∧ a.user_id ≠ b.user_id

instance : IsAntisymm LikerRow rowLeNe :=
  ⟨fun a b h1 h2 => absurd (uidLe_antisymm a.user_id b.user_id h1.1 h2.1) h1.2⟩

lemma uidNe_symm {a b : LikerRow} (h : a.user_id ≠ b.user_id) :
    b.user_id ≠ a.user_id := Ne.symm h

/-- Claim C7.  Deterministic export ordering.  Part 1: the exported row
sequence is a function of the row *multiset* alone — any two stores holding
the same rows (in whatever physical order) with pairwise-distinct `user_id`
keys for the target export identical row sequences, so repeated exports of
an unchanged store are byte-identical (modulo filename).  Part 2: every
export starts with the fixed header row, lists the target's rows sorted by
`user_id` ascending, and lists exactly the stored rows for the target. -/
theorem c7_deterministic_export :
    (∀ (l1 l2 : List LikerRow) (tid : String),
        l1.Perm l2 →
        (rowsFor l1 tid).Pairwise (fun a b => a.user_id ≠ b.user_id) →
        exportRows l1 tid = exportRows l2 tid) ∧
    (∀ (l : List LikerRow) (tid : String),
        (exportRows l tid).head? = some headerRow ∧
        List.Sorted rowLe (orderedRows l tid) ∧
        (orderedRows l tid).Perm (rowsFor l tid)) := by
  constructor
  · intro l1 l2 tid hperm hnd
    have hpf : (rowsFor l1 tid).Perm (rowsFor l2 tid) := hperm.filter _
    have hp1 : (orderedRows l1 tid).Perm (rowsFor l1 tid) := List.perm_insertionSort rowLe _
    have hp2 : (orderedRows l2 tid).Perm (rowsFor l2 tid) := List.perm_insertionSort rowLe _
    have hs1 : List.Sorted rowLe (orderedRows l1 tid) := List.sorted_insertionSort rowLe _
    have hs2 : List.Sorted rowLe (orderedRows l2 tid) := List.sorted_insertionSort rowLe _
    have hnd2 : (rowsFor l2 tid).Pairwise (fun a b => a.user_id ≠ b.user_id) :=
      (hpf.pairwise_iff (fun h => uidNe_symm h)).mp hnd
    have hnd1' : (orderedRows l1 tid).Pairwise (fun a b => a.user_id ≠ b.user_id) :=
      (hp1.pairwise_iff (fun h => uidNe_symm h)).mpr hnd
    have hnd2' : (orderedRows l2 tid).Pairwise (fun a b => a.user_id ≠ b.user_id) :=
      (hp2.pairwise_iff (fun h => uidNe_symm h)).mpr hnd2
    have hkey : orderedRows l1 tid = orderedRows l2 tid := by
      apply List.eq_of_perm_of_sorted (r := rowLeNe)
        (hp1.trans (hpf.trans hp2.symm))
      · exact hs1.and hnd1'
      · exact hs2.and hnd2'
    unfold exportRows
    rw [hkey]
  · intro l tid
    exact ⟨rfl, List.sorted_insertionSort rowLe _, List.perm_insertionSort rowLe _⟩

/-- Claim C7, witness: the same two records held in the two possible physical
orders export identically. -/
theorem c7_deterministic_export_witness :
    exportRows [mkLikerRow "42" userB, mkLikerRow "42" userA] "42" =
      exportRows [mkLikerRow "42" userA, mkLikerRow "42" userB] "42" :=
  c7_deterministic_export.1 [mkLikerRow "42" userB, mkLikerRow "42" userA]
    [mkLikerRow "42" userA, mkLikerRow "42" userB] "42" (by decide) (by decide)

/-! ## Injectivity of the decimal timestamp suffix

`csvName` embeds `str(int(time.time()))` via `Nat.repr`; to show distinct
generation timestamps give distinct snapshot names we prove `Nat.repr`
injective by recovering the number from its digit string. -/

/-- The value a decimal digit string denotes. -/
def digitsVal (l : List Char) : Nat :=
  l.foldl (fun a c => a * 10 + (c.toNat - 48)) 0

lemma digitsVal_append_singleton (xs : List Char) (c : Char) :
    digitsVal (xs ++ [c]) = digitsVal xs * 10 + (c.toNat - 48) := by
  unfold digitsVal
  rw [List.foldl_append]
  rfl

/-- The digit string `Nat.toDigitsCore` produces for base 10, defined by
value recursion rather than fuel. -/
def myDigits (n : Nat) : List Char :=
  if h : n / 10 = 0 then [Nat.digitChar (n % 10)]
  else myDigits (n / 10) ++ [Nat.digitChar (n % 10)]
decreasing_by
  exact Nat.div_lt_self (by omega) (by omega)

lemma toDigitsCore_eq_myDigits (f : Nat) : ∀ (n : Nat) (l : List Char), n < f →
    Nat.toDigitsCore 10 f n l = myDigits n ++ l := by
  induction f with
  | zero => intro n l h; omega
  | succ f ih =>
      intro n l h
      rw [myDigits]
      by_cases hz : n / 10 = 0
      · rw [dif_pos hz]
        simp only [Nat.toDigitsCore]
        rw [if_pos hz]
        rfl
      · rw [dif_neg hz]
        simp only [Nat.toDigitsCore]
        rw [if_neg hz]
        have hlt : n / 10 < f := by
          have hdl : n / 10 < n := Nat.div_lt_self (by omega) (by decide)
          omega
        rw [ih (n / 10) _ hlt, List.append_assoc]
        rfl

lemma digitChar_val : ∀ m, m < 10 → (Nat.digitChar m).toNat - 48 = m := by decide

lemma digitsVal_myDigits (n : Nat) : digitsVal (myDigits n) = n := by
  induction n using Nat.strong_induction_on with
  | _ n ih =>
      rw [myDigits]
      by_cases hz : n / 10 = 0
      · rw [dif_pos hz]
        show (0 * 10 + ((Nat.digitChar (n % 10)).toNat - 48)) = n
        rw [digitChar_val (n % 10) (by omega)]
        omega
      · rw [dif_neg hz]
        rw [digitsVal_append_singleton]
        rw [ih (n / 10) (Nat.div_lt_self (by omega) (by omega))]
        rw [digitChar_val (n % 10) (by omega)]
        omega

lemma natRepr_inj {m n : Nat} (h : Nat.repr m = Nat.repr n) : m = n := by
  have h2 : Nat.toDigits 10 m = Nat.toDigits 10 n := by
    have h3 := congrArg String.data h
    simpa [Nat.repr, List.asString] using h3
  have h4 : myDigits m = myDigits n := by
    unfold Nat.toDigits at h2
    rw [toDigitsCore_eq_myDigits (m + 1) m [] (by omega),
        toDigitsCore_eq_myDigits (n + 1) n [] (by omega)] at h2
    simpa using h2
  have h5 := congrArg digitsVal h4
  rwa [digitsVal_myDigits, digitsVal_myDigits] at h5

lemma csvName_final (tid : String) (t : Nat) :
    csvName "final" tid t = tid ++ "_likers_" ++ Nat.repr t ++ ".csv" := rfl

lemma csvName_final_inj (tid : String) (t1 t2 : Nat) (h : t1 ≠ t2) :
    csvName "final" tid t1 ≠ csvName "final" tid t2 := by
  intro he
  apply h
  apply natRepr_inj
  rw [csvName_final, csvName_final] at he
  have h2 := congrArg String.data he
  simp only [String.data_append, List.append_assoc] at h2
  exact String.ext (List.append_cancel_right
    (List.append_cancel_left (List.append_cancel_left h2)))

/-! ## Claim C8: export scheduling in final mode -/

lemma runLoop_exports_eq (env : Env) (tid : String) :
    ∀ (fuel : Nat) (tok : Option String) (done : Bool) (total pc : Nat) (sim : Sim),
    ((runLoop env tid fuel tok done total pc sim).1).exports = sim.exports := by
  intro fuel
  induction fuel with
  | zero => intro tok done total pc sim; rfl
  | succ fuel ih =>
      intro tok done total pc sim
      cases done with
      | true => rw [runLoop_succ_done]
      | false =>
          by_cases hs : stopSet env.stopTime sim.now = true
          · rw [runLoop_succ_stop env tid fuel tok total pc sim hs]
          · rw [Bool.not_eq_true] at hs
            rcases hfp : fetch_page env sim.script sim.now with ⟨res, script1, now1⟩
            cases res with
            | none =>
                rw [runLoop_succ_none env tid fuel tok total pc sim script1 now1 hs hfp]
                rfl
            | some page =>
                rw [runLoop_succ_some env tid fuel tok total pc sim page script1 now1 hs hfp]
                rw [ih]
                exact pageStepSim_exports env tid sim total page script1 now1

/-- The checkpoint row of a target already marked complete, with an empty
record store. -/
def c8DoneRow : StateRow :=
  { tweet_id := "42"
    next_token := none
    doneInt := 1
    last_request_time := some 1
    total_users_found := 0
    last_export_time := 0 }

/-- Resuming a done target with *zero* stored records. -/
def c8Sim0 : Sim :=
  { likers := []
    states := [c8DoneRow]
    exports := []
    script := []
    now := 5 }

/-- Claim C8, counterexample.  On the halt path that resumes a target whose
checkpoint is already `done=true`, `run` returns early and exports
*unconditionally*: with zero records stored it still writes a snapshot
(header only), contradicting the claim that on every halt path the export
happens only if at least one record exists. -/
theorem c8_counterexample :
    (run "final" e2eEnv "42" c8Sim0).sim.exports =
      [("42_likers_5.csv", [headerRow])] ∧
    (rowsFor c8Sim0.likers "42").length = 0 := by
  refine ⟨by decide, by decide⟩

/-- Claim C8, amended.  In final export mode: (1) resuming a target whose
checkpoint is already `done=true` performs the snapshot export exactly once,
*unconditionally* — even when no record exists; (2) on every halt path that
goes through the collection loop, the export is performed after the loop
halts, exactly once if at least one record then exists for the target and
not at all otherwise (the loop itself never exports); (3) the filename
embeds the generation timestamp, so runs whose exports happen at different
epoch seconds never overwrite one another's snapshot. -/
theorem c8_final_export_once :
    (∀ (env : Env) (tid : String) (sim0 : Sim) (row : StateRow),
        findState sim0.states tid = some row → row.doneInt ≠ 0 →
        (run "final" env tid sim0).sim.exports =
          sim0.exports ++ [(csvName "final" tid sim0.now, exportRows sim0.likers tid)]) ∧
    (∀ (env : Env) (tid : String) (sim0 : Sim),
        (∀ row, findState sim0.states tid = some row → row.doneInt = 0) →
        (run "final" env tid sim0).sim.exports.length =
          sim0.exports.length +
            (if 0 < (rowsFor (run "final" env tid sim0).sim.likers tid).length
             then 1 else 0)) ∧
    (∀ (tid : String) (t1 t2 : Nat), t1 ≠ t2 →
        csvName "final" tid t1 ≠ csvName "final" tid t2) := by
  refine ⟨?_, ?_, csvName_final_inj⟩
  · intro env tid sim0 row hfind hdone
    have hb : (row.doneInt != 0) = true := bne_iff_ne.mpr hdone
    have hget : get_state sim0.states tid =
        ((row.next_token, true, row.total_users_found, row.last_export_time),
          sim0.states) := by
      unfold get_state
      rw [hfind]
      simp [hb]
    unfold run
    rw [hget]
    rfl
  · intro env tid sim0 hnd
    cases hfind : findState sim0.states tid with
    | some row =>
        have hd0 : row.doneInt = 0 := hnd row hfind
        have hget : get_state sim0.states tid =
            ((row.next_token, false, row.total_users_found, row.last_export_time),
              sim0.states) := by
          unfold get_state
          rw [hfind]
          simp [hd0]
        unfold run
        rw [hget]
        simp only [Bool.false_eq_true, if_false]
        by_cases hrows : 0 < (rowsFor ((runLoop env tid max_pages row.next_token false
            row.total_users_found 0 { sim0 with states := sim0.states }).1).likers tid).length
        · rw [if_pos ⟨by decide, hrows⟩]
          simp [export_csv, runLoop_exports_eq, hrows]
        · rw [if_neg (fun hc => hrows hc.2)]
          simp [runLoop_exports_eq, hrows]
    | none =>
        have hget : get_state sim0.states tid =
            ((none, false, 0, 0), sim0.states ++ [defaultStateRow tid]) := by
          unfold get_state
          rw [hfind]
        unfold run
        rw [hget]
        simp only [Bool.false_eq_true, if_false]
        by_cases hrows : 0 < (rowsFor ((runLoop env tid max_pages none false 0 0
            { sim0 with states := sim0.states ++ [defaultStateRow tid] }).1).likers
            tid).length
        · rw [if_pos ⟨by decide, hrows⟩]
          simp [export_csv, runLoop_exports_eq, hrows]
        · rw [if_neg (fun hc => hrows hc.2)]
          simp [runLoop_exports_eq, hrows]

/-- Claim C8, witness: resuming a done target exports exactly one snapshot. -/
theorem c8_final_export_once_witness :
    (run "final" e2eEnv "42" c8Sim0).sim.exports =
      c8Sim0.exports ++ [(csvName "final" "42" c8Sim0.now, exportRows c8Sim0.likers "42")] :=
  c8_final_export_once.1 e2eEnv "42" c8Sim0 c8DoneRow (by decide) (by decide)

end FetchLikers
